import Mathlib

/-!
Shallow embedding of the session/logging core of `src/app.py`
(Streamlit chat application for a behavioural-science study).

The Python script keeps per-participant state in `st.session_state`
(participant id, chat history, page, turn counter, pending upload),
streams model responses through `get_gemini_response_stream`, appends one
spreadsheet row per completed turn through `log_interaction`, and renders
the transcript for download through `format_chat_history_for_download`.
Each of those is translated below as a pure function; external behaviour
(the Gemini API, the Google-Sheets sink, wall-clock time) is passed in
explicitly as data.
-/

set_option autoImplicit false

namespace LlmRecall

/-- Image bytes are never inspected by the logging core; we model them as
an abstract payload. -/
abbrev ImageData := String

/-- One entry of `st.session_state.chat_history`: a dict with a `role`
key and (for every message this variant ever appends) a `text` key.
`format_chat_history_for_download` tolerates a missing `text` key via
`message.get("text", "[Image attached]")`, so `text` is optional here. -/
structure Message where
  role : String
  text : Option String
  deriving Repr, DecidableEq

/-- The per-session fields initialised at lines 84-88 of `src/app.py`,
plus the `uploaded_file` slot written by the file-uploader widget. -/
structure SessionState where
  anonymized_user_id : String
  chat_history : List Message
  page : String
  turn_count : Nat
  uploaded_file : Option ImageData
  deriving Repr, DecidableEq

/-- The state created by the `if "anonymized_user_id" not in st.session_state`
block: fresh id, empty history, Landing page, zero turns, no upload. -/
def initial_session_state (uuid : String) : SessionState :=
  { anonymized_user_id := uuid
    chat_history := []
    page := "Landing"
    turn_count := 0
    uploaded_file := none }

/-- The lazy-init guard at line 84: the fields are (re)assigned only when
no session exists yet; an existing session is left untouched. `uuid` is
the value `str(uuid.uuid4())` would produce on this run. -/
def ensure_session_initialized : Option SessionState → String → SessionState
  | some st, _ => st
  | none, uuid => initial_session_state uuid

/-- Observable behaviour of one call to
`gemini_model.generate_content(..., stream=True)`: the text chunks the
iterator produces, followed (optionally) by a raised exception whose
`str(e)` is `failure`. -/
structure GatewayBehavior where
  chunks : List String
  failure : Option String
  deriving Repr, DecidableEq

/-- `get_gemini_response_stream` (lines 40-49): yield each chunk in turn;
if the underlying iterator raises, the `except` clause yields one final
fragment `"Error calling Gemini API: " + str(e)` instead of propagating. -/
def get_gemini_response_stream : GatewayBehavior → List String
  | { chunks := [], failure := none } => []
  | { chunks := [], failure := some e } => ["Error calling Gemini API: " ++ e]
  | { chunks := c :: cs, failure := f } =>
      c :: get_gemini_response_stream { chunks := cs, failure := f }

/-- `st.write_stream`: consume the generator and return the concatenation
of all fragments. -/
def write_stream (fragments : List String) : String :=
  fragments.foldl (fun acc c => acc ++ c) ""

/-- One spreadsheet row as built by `log_interaction` (lines 51-66). -/
structure LogEntry where
  timestamp : String
  user_id : String
  turn_count : Nat
  attachment_type : String
  prompt : String
  response : String
  prompt_length : Nat
  response_length : Nat
  duration_ms : Nat
  deriving Repr, DecidableEq

/-- `log_interaction`: build the row and append it to the sheet; if
`gsheet.append_row` raises (`sinkOk = false`) the exception is caught and
an `st.error` warning is shown instead, leaving the sheet unchanged.
Returns the new sheet contents and the warning, if any. Mirrors the
Python length fields: `len(prompt)` and `len(response) if response else 0`. -/
def log_interaction (sinkOk : Bool) (sheet : List LogEntry) (user_id : String)
    (turn_count : Nat) (attachment_type prompt response : String)
    (now : String) (duration_ms : Nat) : List LogEntry × Option String :=
  if sinkOk then
    (sheet ++ [{ timestamp := now
                 user_id := user_id
                 turn_count := turn_count
                 attachment_type := attachment_type
                 prompt := prompt
                 response := response
                 prompt_length := prompt.length
                 response_length := if response = "" then 0 else response.length
                 duration_ms := duration_ms }], none)
  else
    (sheet, some "Failed to log interaction to Google Sheet.")

/-- `format_chat_history_for_download` (lines 68-81). `now` is the string
`datetime.datetime.now().strftime(...)` evaluates to at call time. -/
def format_chat_history_for_download (history : List Message)
    (anonymized_user_id : String) (now : String) : String :=
  let header :=
    "Chat History\n"
      ++ ("Participant ID: " ++ anonymized_user_id ++ "\n")
      ++ ("Date: " ++ now ++ "\n")
      ++ (String.mk (List.replicate 40 '=') ++ "\n\n")
  history.foldl (fun acc message =>
    let role := if message.role = "user" then "You" else "AI Assistant"
    let text := message.text.getD "[Image attached]"
    acc ++ ("**" ++ role ++ ":**\n" ++ text ++ "\n\n") ++ "---\n\n") header

/-- Calling the formatter on the live session: it reads
`st.session_state.chat_history` and `st.session_state.anonymized_user_id`
and writes nothing back, so the session component of the result is the
input state unchanged. -/
def format_export_call (st : SessionState) (now : String) :
    String × SessionState :=
  (format_chat_history_for_download st.chat_history st.anonymized_user_id now, st)

/-- External circumstances of one submission: what the model API does,
whether the sheet append succeeds, the timestamp written into the row,
and the measured duration. -/
structure SubmissionEnv where
  gateway : GatewayBehavior
  sinkOk : Bool
  log_timestamp : String
  duration_ms : Nat
  deriving Repr, DecidableEq

/-- Everything a completed submission leaves behind: the new session
state, the sheet contents, the logging warning (if the sink failed), and
the parts actually passed to the gateway. -/
structure SubmissionResult where
  state : SessionState
  sheet : List LogEntry
  warning : Option String
  api_prompt_text : String
  api_prompt_image : Option ImageData
  deriving Repr, DecidableEq

/-- The body of the `if prompt := st.chat_input(...)` block (lines
137-186), parametric in the already-classified `attachment_type` so that
the faithful variant and the spec-modelled canvas variant share one body:
increment `turn_count`, append the user message, stream and assemble the
response, append the assistant message, log the row, clear the upload. -/
def process_submission_core (st : SessionState) (sheet : List LogEntry)
    (prompt : String) (attachment_type : String) (env : SubmissionEnv) :
    SubmissionResult :=
  let st1 := { st with turn_count := st.turn_count + 1 }
  let api_image := st1.uploaded_file
  let st2 := { st1 with
    chat_history := st1.chat_history ++ [Message.mk "user" (some prompt)] }
  let full_response := write_stream (get_gemini_response_stream env.gateway)
  let st3 := { st2 with
    chat_history := st2.chat_history ++ [Message.mk "assistant" (some full_response)] }
  let logged := log_interaction env.sinkOk sheet st3.anonymized_user_id
    st3.turn_count attachment_type prompt full_response env.log_timestamp env.duration_ms
  let st4 := { st3 with uploaded_file := none }
  { state := st4
    sheet := logged.1
    warning := logged.2
    api_prompt_text := prompt
    api_prompt_image := api_image }

/-- The submission handler exactly as in `src/app.py`: the attachment is
classified from the uploaded file alone (`"Image Upload"` when present,
otherwise `"Text Only"`); this variant has no drawing canvas. -/
def process_submission (st : SessionState) (sheet : List LogEntry)
    (prompt : String) (env : SubmissionEnv) : SubmissionResult :=
  process_submission_core st sheet prompt
    (if st.uploaded_file.isSome then "Image Upload" else "Text Only") env

/-- The observable state between the user-message append and the
assistant-message append of one submission: `turn_count` has already been
incremented (line 138) and the user message is in the history (line 156),
but the assistant message has not arrived yet. -/
def submission_mid_state (st : SessionState) (prompt : String) : SessionState :=
  let st1 := { st with turn_count := st.turn_count + 1 }
  { st1 with
    chat_history := st1.chat_history ++ [Message.mk "user" (some prompt)] }

/-- Modelled from the spec: `src/app.py` contains no drawing canvas (only
the file uploader), so the tie-break of section 4.3 step 1 — "if both an
uploaded file and a drawn canvas are present simultaneously, uploaded
file takes precedence" — is modelled here from the words of the spec.
`canvas` is `some` exactly when a non-empty drawing is present. -/
def attachment_type_with_canvas (uploaded canvas : Option ImageData) : String :=
  if uploaded.isSome then "Image Upload"
  else if canvas.isSome then "Canvas Drawing"
  else "Text Only"

/-- Modelled from the spec: the submission handler of a canvas-equipped
variant, identical to `process_submission` except that the attachment is
classified from both sources with upload precedence. -/
def process_submission_with_canvas (st : SessionState) (sheet : List LogEntry)
    (prompt : String) (canvas : Option ImageData) (env : SubmissionEnv) :
    SubmissionResult :=
  process_submission_core st sheet prompt
    (attachment_type_with_canvas st.uploaded_file canvas) env

/-- One submission as the participant experiences it: the prompt typed
plus the external circumstances of that turn. -/
structure Submission where
  prompt : String
  env : SubmissionEnv
  deriving Repr, DecidableEq

/-- A whole session: fold the submission handler over a list of
submissions, threading session state and sheet contents. -/
def run_session : SessionState → List LogEntry → List Submission →
    SessionState × List LogEntry
  | st, sheet, [] => (st, sheet)
  | st, sheet, sub :: rest =>
      let r := process_submission st sheet sub.prompt sub.env
      run_session r.state r.sheet rest

/-- Ceiling of `n / 2`, the "len(transcript)/2 rounded up" of the spec. -/
def ceilHalf (n : Nat) : Nat := (n + 1) / 2

/-! ### Basic lemmas about the embedded operations -/

theorem stream_eq (b : GatewayBehavior) :
    get_gemini_response_stream b =
      b.chunks ++ (match b.failure with
        | some e => ["Error calling Gemini API: " ++ e]
        | none => []) := by
  obtain ⟨cs, f⟩ := b
  induction cs with
  | nil => cases f <;> simp [get_gemini_response_stream]
  | cons c cs ih => simpa [get_gemini_response_stream] using ih

theorem write_stream_concat (xs : List String) (y : String) :
    write_stream (xs ++ [y]) = write_stream xs ++ y := by
  simp [write_stream, List.foldl_append]

theorem write_stream_singleton (y : String) : write_stream [y] = y := by
  simp [write_stream]

theorem response_length_if (s : String) :
    (if s = "" then 0 else s.length) = s.length := by
  by_cases h : s = "" <;> simp [h]

theorem format_snoc (h : List Message) (m : Message) (uid now : String) :
    format_chat_history_for_download (h ++ [m]) uid now =
      format_chat_history_for_download h uid now
        ++ ("**" ++ (if m.role = "user" then "You" else "AI Assistant") ++ ":**\n"
            ++ m.text.getD "[Image attached]" ++ "\n\n") ++ "---\n\n" := by
  simp [format_chat_history_for_download, List.foldl_append]

theorem error_string_ne_empty (e : String) :
    ("Error calling Gemini API: " ++ e) ≠ "" := by
  intro h
  have hl := congrArg String.length h
  rw [String.length_append] at hl
  have h26 : ("Error calling Gemini API: " : String).length = 26 := rfl
  rw [h26] at hl
  simp at hl

theorem process_submission_core_state (st : SessionState) (sheet : List LogEntry)
    (prompt atype : String) (env : SubmissionEnv) :
    (process_submission_core st sheet prompt atype env).state =
      { st with
        turn_count := st.turn_count + 1
        chat_history := st.chat_history
          ++ [Message.mk "user" (some prompt),
              Message.mk "assistant"
                (some (write_stream (get_gemini_response_stream env.gateway)))]
        uploaded_file := none } := by
  simp [process_submission_core]

theorem process_submission_turn_count (st : SessionState) (sheet : List LogEntry)
    (prompt : String) (env : SubmissionEnv) :
    (process_submission st sheet prompt env).state.turn_count
      = st.turn_count + 1 := by
  simp [process_submission, process_submission_core]

theorem process_submission_history (st : SessionState) (sheet : List LogEntry)
    (prompt : String) (env : SubmissionEnv) :
    (process_submission st sheet prompt env).state.chat_history
      = st.chat_history
        ++ [Message.mk "user" (some prompt),
            Message.mk "assistant"
              (some (write_stream (get_gemini_response_stream env.gateway)))] := by
  simp [process_submission, process_submission_core]

theorem process_submission_uid (st : SessionState) (sheet : List LogEntry)
    (prompt : String) (env : SubmissionEnv) :
    (process_submission st sheet prompt env).state.anonymized_user_id
      = st.anonymized_user_id := by
  simp [process_submission, process_submission_core]

theorem run_session_turn_count (subs : List Submission) :
    ∀ st : SessionState, ∀ sheet : List LogEntry,
      (run_session st sheet subs).1.turn_count = st.turn_count + subs.length := by
  induction subs with
  | nil => intro st sheet; simp [run_session]
  | cons s rest ih =>
      intro st sheet
      rw [run_session, ih, process_submission_turn_count]
      simp
      omega

theorem run_session_history_len (subs : List Submission) :
    ∀ st : SessionState, ∀ sheet : List LogEntry,
      (run_session st sheet subs).1.chat_history.length
        = st.chat_history.length + 2 * subs.length := by
  induction subs with
  | nil => intro st sheet; simp [run_session]
  | cons s rest ih =>
      intro st sheet
      rw [run_session, ih, process_submission_history]
      simp
      omega

theorem run_session_uid (subs : List Submission) :
    ∀ st : SessionState, ∀ sheet : List LogEntry,
      (run_session st sheet subs).1.anonymized_user_id
        = st.anonymized_user_id := by
  induction subs with
  | nil => intro st sheet; simp [run_session]
  | cons s rest ih =>
      intro st sheet
      rw [run_session, ih, process_submission_uid]

/-! ### Claim theorems -/

/-- C9: `get_gemini_response_stream` never propagates an exception to its
consumer: with no failure it yields exactly the chunks, and when the
underlying call raises (mid-stream included) it yields the chunks already
produced followed by exactly one final fragment
`"Error calling Gemini API: " ++ e`, so the assembled response is the
concatenation of the prior fragments followed by the error string, not a
replacement of them. -/
theorem stream_never_raises_appends_error (chunks : List String) (e : String) :
    get_gemini_response_stream ⟨chunks, none⟩ = chunks
    ∧ get_gemini_response_stream ⟨chunks, some e⟩
        = chunks ++ ["Error calling Gemini API: " ++ e]
    ∧ write_stream (get_gemini_response_stream ⟨chunks, some e⟩)
        = write_stream chunks ++ ("Error calling Gemini API: " ++ e) := by
  refine ⟨?_, ?_, ?_⟩
  · simpa using stream_eq ⟨chunks, none⟩
  · simpa using stream_eq ⟨chunks, some e⟩
  · have h := stream_eq ⟨chunks, some e⟩
    simp only at h
    rw [h, write_stream_concat]

/-- C10: the export formatter renders "[Image attached]" as the body of
any message without a text field, and labels roles deterministically:
role "user" is labeled "You" and every other role "AI Assistant". -/
theorem export_placeholder_and_role_labels (uid now : String) (msgs : List Message) :
    (∀ r, format_chat_history_for_download (msgs ++ [Message.mk r none]) uid now
        = format_chat_history_for_download msgs uid now
          ++ ("**" ++ (if r = "user" then "You" else "AI Assistant")
              ++ ":**\n" ++ "[Image attached]" ++ "\n\n") ++ "---\n\n")
    ∧ (∀ r s, format_chat_history_for_download (msgs ++ [Message.mk r (some s)]) uid now
        = format_chat_history_for_download msgs uid now
          ++ ("**" ++ (if r = "user" then "You" else "AI Assistant")
              ++ ":**\n" ++ s ++ "\n\n") ++ "---\n\n")
    ∧ (if ("user" : String) = "user" then "You" else "AI Assistant") = "You"
    ∧ (∀ r, r ≠ "user" →
        (if r = "user" then "You" else "AI Assistant") = "AI Assistant") := by
  refine ⟨fun r => ?_, fun r s => ?_, by simp, fun r hr => by simp [hr]⟩
  · simp [format_snoc]
  · simp [format_snoc]

/-- Witness for C10 at a concrete non-user role. -/
theorem export_placeholder_and_role_labels_witness :
    (if ("assistant" : String) = "user" then "You" else "AI Assistant")
      = "AI Assistant" :=
  (export_placeholder_and_role_labels "p" "d" []).2.2.2 "assistant" (by decide)

/-- C1 counterexample: the export text is NOT a function of the
transcript and participant id alone — two calls on the same (empty)
transcript and the same participant id, made at different clock readings,
produce different output, because the code interpolates
`datetime.datetime.now()` into the document. -/
theorem export_depends_on_clock :
    format_chat_history_for_download [] "pid" "2025-01-01 00:00:00"
      ≠ format_chat_history_for_download [] "pid" "2025-01-01 00:00:01" := by
  decide

/-- C1 (amended): the export is a pure, side-effect-free function of the
current transcript, the participant id and the current clock reading;
calling it does not modify session state, and two calls with no
intervening submissions and the same clock reading yield identical
output. -/
theorem export_pure_and_repeatable (st : SessionState) (now : String) :
    (format_export_call st now).2 = st
    ∧ (format_export_call (format_export_call st now).2 now).1
        = (format_export_call st now).1
    ∧ format_export_call st now
        = (format_chat_history_for_download st.chat_history
            st.anonymized_user_id now, st) :=
  ⟨rfl, rfl, rfl⟩

/-- C3: with a gateway that always raises (no chunks, then an exception
`e`), submitting "What is neuroeconomics?" still completes the turn: the
transcript gains exactly the user message and an assistant message whose
text is the non-empty error description, and exactly one log entry is
appended whose response equals that error description. -/
theorem gateway_failure_completes_turn (st : SessionState) (sheet : List LogEntry)
    (e now : String) (d : Nat) :
    (process_submission st sheet "What is neuroeconomics?"
        ⟨⟨[], some e⟩, true, now, d⟩).state.chat_history
      = st.chat_history
        ++ [Message.mk "user" (some "What is neuroeconomics?"),
            Message.mk "assistant" (some ("Error calling Gemini API: " ++ e))]
    ∧ 0 < ("Error calling Gemini API: " ++ e).length
    ∧ ∃ entry : LogEntry,
        (process_submission st sheet "What is neuroeconomics?"
            ⟨⟨[], some e⟩, true, now, d⟩).sheet = sheet ++ [entry]
        ∧ entry.response = "Error calling Gemini API: " ++ e := by
  have hresp : write_stream (get_gemini_response_stream ⟨[], some e⟩)
      = "Error calling Gemini API: " ++ e := by
    have h := stream_eq ⟨[], some e⟩
    simp only at h
    rw [h]
    simpa using write_stream_singleton ("Error calling Gemini API: " ++ e)
  refine ⟨?_, ?_, ?_⟩
  · rw [process_submission_history, hresp]
  · rw [String.length_append]
    have h26 : ("Error calling Gemini API: " : String).length = 26 := rfl
    omega
  · have hsheet : (process_submission st sheet "What is neuroeconomics?"
        ⟨⟨[], some e⟩, true, now, d⟩).sheet
        = sheet ++ [⟨now, st.anonymized_user_id, st.turn_count + 1,
            if st.uploaded_file.isSome then "Image Upload" else "Text Only",
            "What is neuroeconomics?", "Error calling Gemini API: " ++ e,
            ("What is neuroeconomics?" : String).length,
            ("Error calling Gemini API: " ++ e).length, d⟩] := by
      simp [process_submission, process_submission_core, log_interaction, hresp,
        error_string_ne_empty e]
    exact ⟨_, hsheet, rfl⟩

/-- C5: for every completed turn, the appended log entry records
`prompt_length` equal to the length of the exact prompt text passed to
the gateway, and `response_length` equal to the length of the exact text
stored in the transcript assistant message for that turn (which is the
error-string length, or 0, when the gateway fails). -/
theorem log_entry_lengths_roundtrip (st : SessionState) (sheet : List LogEntry)
    (prompt now : String) (g : GatewayBehavior) (d : Nat) :
    (process_submission st sheet prompt ⟨g, true, now, d⟩).api_prompt_text = prompt
    ∧ (process_submission st sheet prompt ⟨g, true, now, d⟩).state.chat_history
        = st.chat_history
          ++ [Message.mk "user" (some prompt),
              Message.mk "assistant"
                (some (write_stream (get_gemini_response_stream g)))]
    ∧ ∃ entry : LogEntry,
        (process_submission st sheet prompt ⟨g, true, now, d⟩).sheet
          = sheet ++ [entry]
        ∧ entry.prompt_length
            = (process_submission st sheet prompt ⟨g, true, now, d⟩).api_prompt_text.length
        ∧ entry.response_length
            = (write_stream (get_gemini_response_stream g)).length := by
  refine ⟨rfl, process_submission_history .., ?_⟩
  have hsheet : (process_submission st sheet prompt ⟨g, true, now, d⟩).sheet
      = sheet ++ [⟨now, st.anonymized_user_id, st.turn_count + 1,
          if st.uploaded_file.isSome then "Image Upload" else "Text Only",
          prompt, write_stream (get_gemini_response_stream g),
          prompt.length,
          (write_stream (get_gemini_response_stream g)).length, d⟩] := by
    simp [process_submission, process_submission_core, log_interaction,
      response_length_if]
  exact ⟨_, hsheet, rfl, rfl⟩

/-- C6: with a log sink that always fails on append, submitting a prompt
still completes the turn: the sheet is left unchanged, the failure is
surfaced as a non-fatal warning, the transcript still gains the user and
assistant messages (no rollback), and from a fresh session the
transcript has length 2. -/
theorem sink_failure_isolated (st : SessionState) (sheet : List LogEntry)
    (prompt now uuid : String) (g : GatewayBehavior) (d : Nat) :
    (process_submission st sheet prompt ⟨g, false, now, d⟩).sheet = sheet
    ∧ (process_submission st sheet prompt ⟨g, false, now, d⟩).warning
        = some "Failed to log interaction to Google Sheet."
    ∧ (process_submission st sheet prompt ⟨g, false, now, d⟩).state.chat_history
        = st.chat_history
          ++ [Message.mk "user" (some prompt),
              Message.mk "assistant"
                (some (write_stream (get_gemini_response_stream g)))]
    ∧ (process_submission (initial_session_state uuid) [] prompt
        ⟨g, false, now, d⟩).state.chat_history.length = 2 := by
  refine ⟨?_, ?_, process_submission_history .., ?_⟩
  · simp [process_submission, process_submission_core, log_interaction]
  · simp [process_submission, process_submission_core, log_interaction]
  · rw [process_submission_history]
    simp [initial_session_state]

/-- C7: the participant id is allocated only when absent (an existing
session is never reassigned by the lazy-init guard), it is the fresh
uuid when the session is created, and no sequence of submissions changes
it: the id read after any run equals the id read before. -/
theorem participant_id_stable (st : SessionState) (uuid : String)
    (sheet : List LogEntry) (subs : List Submission) :
    ensure_session_initialized (some st) uuid = st
    ∧ (ensure_session_initialized none uuid).anonymized_user_id = uuid
    ∧ (run_session st sheet subs).1.anonymized_user_id
        = st.anonymized_user_id :=
  ⟨rfl, rfl, run_session_uid subs st sheet⟩

/-- C2: after every sequence of N completed submissions from a fresh
session the transcript has length exactly 2N and the turn counter equals
N, hence equals the rounded-up half of the transcript length; moreover
the counter is incremented with the user-message append: at the
observable point after the user message is appended and before the
assistant message arrives, the counter already equals the rounded-up
half of the (odd) transcript length. -/
theorem transcript_turn_count_invariant (uuid : String) (subs : List Submission) :
    (run_session (initial_session_state uuid) [] subs).1.chat_history.length
        = 2 * subs.length
    ∧ (run_session (initial_session_state uuid) [] subs).1.turn_count = subs.length
    ∧ (run_session (initial_session_state uuid) [] subs).1.turn_count
        = ceilHalf
            (run_session (initial_session_state uuid) [] subs).1.chat_history.length
    ∧ (∀ st : SessionState, ∀ prompt : String,
        st.chat_history.length = 2 * st.turn_count →
          (submission_mid_state st prompt).turn_count = st.turn_count + 1
          ∧ (submission_mid_state st prompt).chat_history.length
              = 2 * st.turn_count + 1
          ∧ (submission_mid_state st prompt).turn_count
              = ceilHalf (submission_mid_state st prompt).chat_history.length) := by
  have h0 : (initial_session_state uuid).chat_history.length = 0 := rfl
  have h1 : (initial_session_state uuid).turn_count = 0 := rfl
  have hlen := run_session_history_len subs (initial_session_state uuid) []
  have htc := run_session_turn_count subs (initial_session_state uuid) []
  rw [h0] at hlen
  rw [h1] at htc
  refine ⟨by omega, by omega, ?_, ?_⟩
  · simp only [ceilHalf]
    omega
  · intro st prompt h
    refine ⟨by simp [submission_mid_state], ?_, ?_⟩
    · simp [submission_mid_state, h]
    · simp [submission_mid_state, ceilHalf, h]
      omega

/-- Witness for C2: the mid-submission invariant discharged at a fresh
concrete session. -/
theorem transcript_turn_count_invariant_witness :
    (submission_mid_state (initial_session_state "p") "hi").turn_count
      = ceilHalf
          (submission_mid_state (initial_session_state "p") "hi").chat_history.length :=
  (((transcript_turn_count_invariant "p" []).2.2.2
    (initial_session_state "p") "hi") (by decide)).2.2

/-- C4: submitting "A", "B", "C" in sequence from a fresh session, with
the sink succeeding, appends exactly three log entries, in the order
A, B, C, with strictly increasing turn counts 1, 2, 3. -/
theorem three_submissions_log_in_order (uuid now1 now2 now3 : String)
    (g1 g2 g3 : GatewayBehavior) (d1 d2 d3 : Nat) :
    ((run_session (initial_session_state uuid) []
        [⟨"A", ⟨g1, true, now1, d1⟩⟩, ⟨"B", ⟨g2, true, now2, d2⟩⟩,
         ⟨"C", ⟨g3, true, now3, d3⟩⟩]).2).length = 3
    ∧ ((run_session (initial_session_state uuid) []
        [⟨"A", ⟨g1, true, now1, d1⟩⟩, ⟨"B", ⟨g2, true, now2, d2⟩⟩,
         ⟨"C", ⟨g3, true, now3, d3⟩⟩]).2).map (fun en => en.prompt)
        = ["A", "B", "C"]
    ∧ ((run_session (initial_session_state uuid) []
        [⟨"A", ⟨g1, true, now1, d1⟩⟩, ⟨"B", ⟨g2, true, now2, d2⟩⟩,
         ⟨"C", ⟨g3, true, now3, d3⟩⟩]).2).map (fun en => en.turn_count)
        = [1, 2, 3] := by
  refine ⟨?_, ?_, ?_⟩ <;>
    simp [run_session, process_submission, process_submission_core,
      log_interaction, initial_session_state]

/-- C8 (spec-modelled, the canvas source is absent from src/app.py):
when both an uploaded image and a non-empty canvas drawing are present
at submission time, the uploaded file takes precedence — the attachment
is classified "Image Upload", and the log entry appended by the
canvas-equipped submission handler carries that classification. -/
theorem upload_precedence_over_canvas (st : SessionState) (sheet : List LogEntry)
    (prompt now : String) (g : GatewayBehavior) (d : Nat) (img cv : ImageData) :
    attachment_type_with_canvas (some img) (some cv) = "Image Upload"
    ∧ ∃ entry : LogEntry,
        (process_submission_with_canvas { st with uploaded_file := some img }
            sheet prompt (some cv) ⟨g, true, now, d⟩).sheet = sheet ++ [entry]
        ∧ entry.attachment_type = "Image Upload" := by
  refine ⟨rfl, ?_⟩
  have hsheet : (process_submission_with_canvas { st with uploaded_file := some img }
      sheet prompt (some cv) ⟨g, true, now, d⟩).sheet
      = sheet ++ [⟨now, st.anonymized_user_id, st.turn_count + 1, "Image Upload",
          prompt, write_stream (get_gemini_response_stream g),
          prompt.length,
          if write_stream (get_gemini_response_stream g) = "" then 0
          else (write_stream (get_gemini_response_stream g)).length, d⟩] := by
    simp [process_submission_with_canvas, process_submission_core,
      attachment_type_with_canvas, log_interaction]
  exact ⟨_, hsheet, rfl⟩

end LlmRecall
